import Mathlib

/-!
Verification of the perflock contract-validation engine
(`packages/core/src/contracts/validator.ts`, `packages/core/src/contracts/loader.ts`,
`packages/core/src/measurement/interaction.ts`).

JavaScript numbers are modelled as exact rationals extended with the two
infinities and NaN (`JSNum`).  Division, addition, subtraction, comparison and
`Math.round` follow the IEEE-754 semantics JavaScript uses, except that finite
arithmetic is exact rather than rounded to binary64.  JavaScript objects used
as string-keyed maps (`interactions`, `rendersByType`, the `components` map)
are modelled as association lists in insertion order, which is the order
`Object.entries` enumerates; keys of a JavaScript object are pairwise
distinct by construction, so theorems about maps with duplicate keys carry a
`Nodup` hypothesis where the distinction matters.
-/

/-- A JavaScript `number`: NaN, +Infinity, -Infinity, or a finite value
(modelled as an exact rational). -/
inductive JSNum where
  | nan : JSNum
  | inf : JSNum
  | ninf : JSNum
  | fin : ℚ → JSNum
deriving DecidableEq, Repr

namespace JSNum

/-- JavaScript `<` (IEEE): any comparison with NaN is false. -/
def lt : JSNum → JSNum → Bool
  | nan, _ => false
  | _, nan => false
  | ninf, ninf => false
  | ninf, _ => true
  | _, ninf => false
  | inf, _ => false
  | _, inf => true
  | fin a, fin b => a < b

/-- JavaScript `>`. -/
def gt (a b : JSNum) : Bool := lt b a

/-- JavaScript `<=` (IEEE): any comparison with NaN is false. -/
def le : JSNum → JSNum → Bool
  | nan, _ => false
  | _, nan => false
  | ninf, _ => true
  | _, ninf => false
  | _, inf => true
  | inf, _ => false
  | fin a, fin b => a ≤ b

/-- JavaScript `+` on numbers. -/
def add : JSNum → JSNum → JSNum
  | nan, _ => nan
  | _, nan => nan
  | inf, ninf => nan
  | ninf, inf => nan
  | inf, _ => inf
  | _, inf => inf
  | ninf, _ => ninf
  | _, ninf => ninf
  | fin a, fin b => fin (a + b)

/-- JavaScript `-` on numbers. -/
def sub : JSNum → JSNum → JSNum
  | nan, _ => nan
  | _, nan => nan
  | inf, inf => nan
  | ninf, ninf => nan
  | inf, _ => inf
  | ninf, _ => ninf
  | _, inf => ninf
  | _, ninf => inf
  | fin a, fin b => fin (a - b)

/-- JavaScript `/` on numbers (signed zero ignored: `fin 0` plays `+0`).
`x/0` is `±Infinity` for `x ≠ 0` and `NaN` for `0/0`; a finite value divided
by an infinity is `0`. -/
def div : JSNum → JSNum → JSNum
  | nan, _ => nan
  | _, nan => nan
  | inf, inf => nan
  | inf, ninf => nan
  | ninf, inf => nan
  | ninf, ninf => nan
  | inf, fin b => if b < 0 then ninf else inf
  | ninf, fin b => if b < 0 then inf else ninf
  | fin _, inf => fin 0
  | fin _, ninf => fin 0
  | fin a, fin b =>
      if b = 0 then
        if a = 0 then nan else if a < 0 then ninf else inf
      else fin (a / b)

/-- JavaScript `Number.isInteger`. -/
def isInteger : JSNum → Bool
  | fin q => q.den = 1
  | _ => false

/-- JavaScript `Math.round`: half-up toward `+Infinity` on finite values,
identity on NaN and the infinities. -/
def round : JSNum → JSNum
  | fin q => fin (⌊q + 1/2⌋ : ℤ)
  | x => x

/-- The coercion performed by `x || 0` on a number: NaN (falsy) becomes `0`,
everything else is returned unchanged (`0 || 0` is `0` either way). -/
def orZero : JSNum → JSNum
  | nan => fin 0
  | x => x

end JSNum

/-- `ValidationStatus` from `contracts/types.ts`. -/
inductive ValidationStatus where
  | pass : ValidationStatus
  | warn : ValidationStatus
  | fail : ValidationStatus
deriving DecidableEq, Repr

/-- `MetricValidation` from `contracts/types.ts`. -/
structure MetricValidation where
  actual : JSNum
  budget : JSNum
  utilization : JSNum
  status : ValidationStatus
  exceededBy : Option JSNum
deriving DecidableEq, Repr

/-- Violation severity (`'minor' | 'moderate' | 'severe'`). -/
inductive Severity where
  | minor : Severity
  | moderate : Severity
  | severe : Severity
deriving DecidableEq, Repr

/-- `Violation` from `contracts/types.ts`. -/
structure Violation where
  metric : String
  budget : JSNum
  actual : JSNum
  exceededByPercent : JSNum
  severity : Severity
deriving DecidableEq, Repr

/-- `getStatusFromUtilization` (validator.ts lines 22-33). -/
def getStatusFromUtilization (utilization warningThreshold : JSNum) : ValidationStatus :=
  if utilization.gt (.fin 1) then .fail
  else if utilization.gt warningThreshold then .warn
  else .pass

/-- `validateMetric` (validator.ts lines 38-54). -/
def validateMetric (actual budget warningThreshold : JSNum) : MetricValidation :=
  let utilization := actual.div budget
  let status := getStatusFromUtilization utilization warningThreshold
  let exceededBy :=
    if utilization.gt (.fin 1) then some ((actual.sub budget).div budget) else none
  { actual := actual, budget := budget, utilization := utilization,
    status := status, exceededBy := exceededBy }

/-- `getViolationSeverity` (validator.ts lines 59-69). -/
def getViolationSeverity (exceededByPercent : JSNum) : Severity :=
  if exceededByPercent.lt (.fin (1/4)) then .minor
  else if exceededByPercent.lt (.fin (1/2)) then .moderate
  else .severe

/-- `createViolation` (validator.ts lines 74-87). -/
def createViolation (metric : String) (budget actual : JSNum) : Violation :=
  let exceededByPercent := (actual.sub budget).div budget
  { metric := metric, budget := budget, actual := actual,
    exceededByPercent := exceededByPercent,
    severity := getViolationSeverity exceededByPercent }

/-- `combineStatuses` (validator.ts lines 92-100). -/
def combineStatuses (statuses : List ValidationStatus) : ValidationStatus :=
  if statuses.contains .fail then .fail
  else if statuses.contains .warn then .warn
  else .pass

/-- `InteractionBudget` from `contracts/types.ts`; `maxRenders` is kept
optional because the validator probes it with `!== undefined`. -/
structure InteractionBudget where
  maxRenders : Option JSNum
  maxRenderTime : Option JSNum
deriving DecidableEq, Repr

/-- `Required<ComponentContract>`: every field populated after resolution.
`interactions` is the `Object.entries` view of the interactions object. -/
structure RequiredComponentContract where
  maxRenderTime : JSNum
  maxRenderCount : JSNum
  maxMemoryDelta : JSNum
  warningThreshold : JSNum
  interactions : List (String × InteractionBudget)
  meta : List String
deriving DecidableEq, Repr

/-- Render phase reported by `React.Profiler`. -/
inductive RenderPhase where
  | mount : RenderPhase
  | update : RenderPhase
  | nestedUpdate : RenderPhase
deriving DecidableEq, Repr

/-- `RenderEvent` from `contracts/types.ts`. -/
structure RenderEvent where
  phase : RenderPhase
  actualDuration : JSNum
  baseDuration : JSNum
  startTime : JSNum
  commitTime : JSNum
deriving DecidableEq, Repr

/-- `RenderMetrics` from `contracts/types.ts`. -/
structure RenderMetrics where
  componentName : String
  renderCount : JSNum
  totalActualDuration : JSNum
  totalBaseDuration : JSNum
  averageRenderTime : JSNum
  renders : List RenderEvent
deriving DecidableEq, Repr

/-- `InteractionSpec` (the interaction kind as the string key JavaScript
uses). -/
structure InteractionSpec where
  type : String
  target : String
  text : Option String
deriving DecidableEq, Repr

/-- `InteractionResult` from `contracts/types.ts`. -/
structure InteractionResult where
  interaction : InteractionSpec
  rendersTriggered : JSNum
  totalRenderTime : JSNum
  averageRenderTime : JSNum
deriving DecidableEq, Repr

/-- `MeasureInteractionResult` from `measurement/interaction.ts`. -/
structure MeasureInteractionResult where
  componentName : String
  metrics : RenderMetrics
  interactionResults : List InteractionResult
  totalRenders : JSNum
  rendersPerInteraction : JSNum
  rendersByType : List (String × JSNum)
  timestamp : JSNum
  contractValidation : Option (Bool × String)
deriving DecidableEq, Repr

/-- The `RenderMetrics | MeasureInteractionResult` union the validator takes;
the source distinguishes the arms by probing for the `metrics` /
`interactionResults` fields. -/
inductive Measurements where
  | plain : RenderMetrics → Measurements
  | interaction : MeasureInteractionResult → Measurements
deriving DecidableEq, Repr

/-- The `metrics` map of a `ValidationResult`. -/
structure ValidationMetricsMap where
  renderTime : Option MetricValidation
  renderCount : Option MetricValidation
  memoryDelta : Option MetricValidation
  rendersPerInteraction : Option (List (String × MetricValidation))
deriving DecidableEq, Repr

/-- `ValidationResult` from `contracts/types.ts` (`FixSuggestion`s are opaque
strings here: the validator only ever emits an empty list). -/
structure ValidationResult where
  status : ValidationStatus
  componentName : String
  metrics : ValidationMetricsMap
  violations : List Violation
  suggestions : List String
deriving DecidableEq, Repr

/-- `rendersByType[type] || 0` (validator.ts line 172): an absent key reads
`undefined` and coerces to `0`; a present value goes through `|| 0`. -/
def lookupOrZero (rbt : List (String × JSNum)) (ty : String) : JSNum :=
  match List.lookup ty rbt with
  | some v => v.orZero
  | none => .fin 0

/-- The per-interaction loop of `validateAgainstContract`
(validator.ts lines 170-193): for each `interactions` entry whose
`maxRenders` is defined, validate `rendersByType[type] || 0` against it,
collecting the validation entries, statuses and violations in iteration
order. -/
def interactionChecks (rbt : List (String × JSNum)) (w : JSNum) :
    List (String × InteractionBudget) →
    List (String × MetricValidation) × List ValidationStatus × List Violation
  | [] => ([], [], [])
  | (ty, budget) :: rest =>
    match budget.maxRenders with
    | some mr =>
      let actualRenders := lookupOrZero rbt ty
      let v := validateMetric actualRenders mr w
      let tail := interactionChecks rbt w rest
      ((ty, v) :: tail.1, v.status :: tail.2.1,
        (if v.status = .fail then
          [createViolation ("rendersPerInteraction." ++ ty) mr actualRenders]
        else []) ++ tail.2.2)
    | none => interactionChecks rbt w rest

/-- The metric extraction at validator.ts lines 122-123
(`'metrics' in measurements ? measurements.metrics : measurements`). -/
def extractRenderMetrics : Measurements → RenderMetrics
  | .plain m => m
  | .interaction r => r.metrics

/-- `validateAgainstContract` (validator.ts lines 110-211).  Each budget
equal to `Infinity` skips its check; memory-delta validation does not exist
in the source (the `TODO` at line 200), so `metrics.memoryDelta` is always
absent. -/
def validateAgainstContract (componentName : String) (measurements : Measurements)
    (contract : RequiredComponentContract) : ValidationResult :=
  let warningThreshold := contract.warningThreshold
  let renderMetrics := extractRenderMetrics measurements
  let rtVal : Option MetricValidation :=
    if contract.maxRenderTime ≠ .inf then
      some (validateMetric renderMetrics.averageRenderTime contract.maxRenderTime warningThreshold)
    else none
  let rtStatuses : List ValidationStatus :=
    match rtVal with | some v => [v.status] | none => []
  let rtViolations : List Violation :=
    match rtVal with
    | some v =>
      if v.status = .fail then
        [createViolation "renderTime" contract.maxRenderTime renderMetrics.averageRenderTime]
      else []
    | none => []
  let rcVal : Option MetricValidation :=
    if contract.maxRenderCount ≠ .inf then
      some (validateMetric renderMetrics.renderCount contract.maxRenderCount warningThreshold)
    else none
  let rcStatuses : List ValidationStatus :=
    match rcVal with | some v => [v.status] | none => []
  let rcViolations : List Violation :=
    match rcVal with
    | some v =>
      if v.status = .fail then
        [createViolation "renderCount" contract.maxRenderCount renderMetrics.renderCount]
      else []
    | none => []
  let inter : List (String × MetricValidation) × List ValidationStatus × List Violation :=
    match measurements with
    | .interaction r => interactionChecks r.rendersByType warningThreshold contract.interactions
    | .plain _ => ([], [], [])
  let statuses := rtStatuses ++ rcStatuses ++ inter.2.1
  let violations := rtViolations ++ rcViolations ++ inter.2.2
  { status := if statuses ≠ [] then combineStatuses statuses else .pass
    componentName := componentName
    metrics :=
      { renderTime := rtVal
        renderCount := rcVal
        memoryDelta := none
        rendersPerInteraction := if inter.1 ≠ [] then some inter.1 else none }
    violations := violations
    suggestions := [] }

/-- `isWithinBudget` (validator.ts lines 268-270). -/
def isWithinBudget (actual budget : JSNum) : Bool :=
  actual.le budget

/-- `getBudgetUtilization` (validator.ts lines 275-277). -/
def getBudgetUtilization (actual budget : JSNum) : JSNum :=
  if budget.gt (.fin 0) then actual.div budget else .fin 0

/-- `getOverallStatus` (validator.ts lines 361-363). -/
def getOverallStatus (results : List ValidationResult) : ValidationStatus :=
  combineStatuses (results.map (fun r => r.status))

/-- The `{pass, warn, fail}` counts returned by `countByStatus`. -/
structure StatusCounts where
  pass : Nat
  warn : Nat
  fail : Nat
deriving DecidableEq, Repr

/-- `countByStatus` (validator.ts lines 368-378). -/
def countByStatus (results : List ValidationResult) : StatusCounts :=
  { pass := (results.filter (fun r => r.status == .pass)).length
    warn := (results.filter (fun r => r.status == .warn)).length
    fail := (results.filter (fun r => r.status == .fail)).length }

/-- Sparse `ComponentContract` from `contracts/types.ts` (every field
optional). -/
structure ComponentContract where
  maxRenderTime : Option JSNum
  maxRenderCount : Option JSNum
  maxMemoryDelta : Option JSNum
  warningThreshold : Option JSNum
  interactions : Option (List (String × InteractionBudget))
  meta : Option (List String)
deriving DecidableEq, Repr

/-- `AggregateContract` from `contracts/types.ts`. -/
structure AggregateContract where
  components : List String
  maxTotalRenderTime : Option JSNum
  maxTotalRenderCount : Option JSNum
deriving DecidableEq, Repr

/-- The `bundleStats` block of `GlobalConfig` (sparse). -/
structure BundleStatsConfig where
  enabled : Option Bool
  statsFile : Option String
deriving DecidableEq, Repr

/-- The `diagnostics` block of `GlobalConfig` (sparse). -/
structure DiagnosticsConfig where
  enabled : Option Bool
  suggestFixes : Option Bool
  sourceDir : Option String
deriving DecidableEq, Repr

/-- Sparse `GlobalConfig` from `contracts/types.ts`. -/
structure GlobalConfig where
  runs : Option JSNum
  warmupRuns : Option JSNum
  historyWindow : Option JSNum
  regressionThreshold : Option JSNum
  outputDir : Option String
  artifactName : Option String
  bundleStats : Option BundleStatsConfig
  diagnostics : Option DiagnosticsConfig
deriving DecidableEq, Repr

/-- `ContractConfig` from `contracts/types.ts`; the `components` and
`aggregates` objects appear as their `Object.entries` lists. -/
structure ContractConfig where
  global : Option GlobalConfig
  components : Option (List (String × ComponentContract))
  aggregates : Option (List (String × AggregateContract))
deriving DecidableEq, Repr

/-- Resolved `bundleStats` block. -/
structure ResolvedBundleStats where
  enabled : Bool
  statsFile : Option String
deriving DecidableEq, Repr

/-- Resolved `diagnostics` block. -/
structure ResolvedDiagnostics where
  enabled : Bool
  suggestFixes : Bool
  sourceDir : String
deriving DecidableEq, Repr

/-- `Required<GlobalConfig>`. -/
structure ResolvedGlobalConfig where
  runs : JSNum
  warmupRuns : JSNum
  historyWindow : JSNum
  regressionThreshold : JSNum
  outputDir : String
  artifactName : String
  bundleStats : ResolvedBundleStats
  diagnostics : ResolvedDiagnostics
deriving DecidableEq, Repr

/-- `DEFAULT_GLOBAL_CONFIG` (loader.ts lines 17-33). -/
def DEFAULT_GLOBAL_CONFIG : ResolvedGlobalConfig :=
  { runs := .fin 10
    warmupRuns := .fin 1
    historyWindow := .fin 20
    regressionThreshold := .fin (3/20)
    outputDir := ".perf-contracts"
    artifactName := "perf-results"
    bundleStats := { enabled := false, statsFile := none }
    diagnostics := { enabled := true, suggestFixes := true, sourceDir := "src" } }

/-- `DEFAULT_COMPONENT_CONTRACT.warningThreshold` (loader.ts lines 38-40):
`0.8`. -/
def DEFAULT_COMPONENT_CONTRACT_warningThreshold : JSNum := .fin (4/5)

/-- `ResolvedConfig` (loader.ts lines 81-85); the `Map`s keep insertion
order. -/
structure ResolvedConfig where
  global : ResolvedGlobalConfig
  components : List (String × RequiredComponentContract)
  aggregates : List (String × AggregateContract)
deriving DecidableEq, Repr

/-- `resolveComponentContract` (loader.ts lines 242-254): `??`-defaulting of
every field. -/
def resolveComponentContract (contract : ComponentContract) : RequiredComponentContract :=
  { maxRenderTime := contract.maxRenderTime.getD .inf
    maxRenderCount := contract.maxRenderCount.getD .inf
    maxMemoryDelta := contract.maxMemoryDelta.getD .inf
    warningThreshold := contract.warningThreshold.getD DEFAULT_COMPONENT_CONTRACT_warningThreshold
    interactions := contract.interactions.getD []
    meta := contract.meta.getD [] }

/-- `resolveGlobalConfig` (loader.ts lines 259-282): the `config?.field ??
default` chains; `Option.bind` plays optional chaining. -/
def resolveGlobalConfig (config : Option GlobalConfig) : ResolvedGlobalConfig :=
  { runs := (config.bind (fun c => c.runs)).getD DEFAULT_GLOBAL_CONFIG.runs
    warmupRuns := (config.bind (fun c => c.warmupRuns)).getD DEFAULT_GLOBAL_CONFIG.warmupRuns
    historyWindow := (config.bind (fun c => c.historyWindow)).getD DEFAULT_GLOBAL_CONFIG.historyWindow
    regressionThreshold :=
      (config.bind (fun c => c.regressionThreshold)).getD DEFAULT_GLOBAL_CONFIG.regressionThreshold
    outputDir := (config.bind (fun c => c.outputDir)).getD DEFAULT_GLOBAL_CONFIG.outputDir
    artifactName := (config.bind (fun c => c.artifactName)).getD DEFAULT_GLOBAL_CONFIG.artifactName
    bundleStats :=
      { enabled :=
          ((config.bind (fun c => c.bundleStats)).bind (fun b => b.enabled)).getD
            DEFAULT_GLOBAL_CONFIG.bundleStats.enabled
        statsFile := (config.bind (fun c => c.bundleStats)).bind (fun b => b.statsFile) }
    diagnostics :=
      { enabled :=
          ((config.bind (fun c => c.diagnostics)).bind (fun d => d.enabled)).getD
            DEFAULT_GLOBAL_CONFIG.diagnostics.enabled
        suggestFixes :=
          ((config.bind (fun c => c.diagnostics)).bind (fun d => d.suggestFixes)).getD
            DEFAULT_GLOBAL_CONFIG.diagnostics.suggestFixes
        sourceDir :=
          ((config.bind (fun c => c.diagnostics)).bind (fun d => d.sourceDir)).getD
            DEFAULT_GLOBAL_CONFIG.diagnostics.sourceDir } }

/-- `resolveConfig` (loader.ts lines 290-308). -/
def resolveConfig (config : ContractConfig) : ResolvedConfig :=
  { global := resolveGlobalConfig config.global
    components := (config.components.getD []).map
      (fun p => (p.1, resolveComponentContract p.2))
    aggregates := config.aggregates.getD [] }

/-- `getComponentContract` (loader.ts lines 317-322). -/
def getComponentContract (config : ResolvedConfig) (componentName : String) :
    Option RequiredComponentContract :=
  List.lookup componentName config.components

/-- The `global` block of `validateConfig` (loader.ts lines 355-377). -/
def globalConfigErrors (g : GlobalConfig) : List String :=
  (match g.runs with
   | some r =>
     if r.lt (.fin 1) || !r.isInteger then ["global.runs must be a positive integer"] else []
   | none => []) ++
  (match g.regressionThreshold with
   | some t =>
     if t.lt (.fin 0) || t.gt (.fin 1) then
       ["global.regressionThreshold must be between 0 and 1"]
     else []
   | none => []) ++
  (match g.historyWindow with
   | some h =>
     if h.lt (.fin 1) || !h.isInteger then
       ["global.historyWindow must be a positive integer"]
     else []
   | none => [])

/-- The inner interaction-budget loop of `validateConfig`
(loader.ts lines 404-414). -/
def interactionBudgetErrors (name : String) :
    List (String × InteractionBudget) → List String
  | [] => []
  | (interaction, budget) :: rest =>
    (match budget.maxRenders with
     | some mr =>
       if mr.le (.fin 0) then
         [name ++ ".interactions." ++ interaction ++ ".maxRenders must be positive"]
       else []
     | none => []) ++ interactionBudgetErrors name rest

/-- The checks `validateConfig` runs for one component contract
(loader.ts lines 381-415). -/
def componentContractErrors (name : String) (contract : ComponentContract) : List String :=
  (match contract.maxRenderTime with
   | some v => if v.le (.fin 0) then [name ++ ".maxRenderTime must be positive"] else []
   | none => []) ++
  (match contract.maxRenderCount with
   | some v =>
     if v.le (.fin 0) || !v.isInteger then
       [name ++ ".maxRenderCount must be a positive integer"]
     else []
   | none => []) ++
  (match contract.warningThreshold with
   | some v =>
     if v.lt (.fin 0) || v.gt (.fin 1) then
       [name ++ ".warningThreshold must be between 0 and 1"]
     else []
   | none => []) ++
  (match contract.interactions with
   | some inters => interactionBudgetErrors name inters
   | none => [])

/-- The component loop of `validateConfig` (loader.ts lines 380-416). -/
def componentsErrors : List (String × ComponentContract) → List String
  | [] => []
  | (name, c) :: rest => componentContractErrors name c ++ componentsErrors rest

/-- The aggregates loop of `validateConfig` (loader.ts lines 419-425). -/
def aggregatesErrors : List (String × AggregateContract) → List String
  | [] => []
  | (name, aggregate) :: rest =>
    (if aggregate.components.length = 0 then
      [name ++ ".components must be a non-empty array"]
     else []) ++ aggregatesErrors rest

/-- `validateConfig` (loader.ts lines 351-428): every structural rule is
checked and all messages are accumulated into one list. -/
def validateConfig (config : ContractConfig) : List String :=
  (match config.global with | some g => globalConfigErrors g | none => []) ++
  (match config.components with | some cs => componentsErrors cs | none => []) ++
  (match config.aggregates with | some ags => aggregatesErrors ags | none => [])

/-- Placeholder for the JavaScript `undefined` an out-of-range
`interactionResults[index]` access would produce inside `aggregateResults`
(the source would then throw a `TypeError` reading its fields; all theorems
below only exercise in-range accesses, where this value is never used). -/
def undefinedInteractionResult : InteractionResult :=
  { interaction := { type := "", target := "", text := none }
    rendersTriggered := .nan
    totalRenderTime := .nan
    averageRenderTime := .nan }

/-- The running-sum loop `reduce((sum, r) => sum + r.rendersTriggered, 0)`
(interaction.ts lines 283-286 and 365-368). -/
def sumRendersTriggered (irs : List InteractionResult) : JSNum :=
  irs.foldl (fun sum r => sum.add r.rendersTriggered) (.fin 0)

/-- One step of `rendersByType[type] = (rendersByType[type] || 0) +
rendersTriggered`: in-place add on an insertion-ordered string-keyed
object. -/
def addRenderToType (rbt : List (String × JSNum)) (ty : String) (n : JSNum) :
    List (String × JSNum) :=
  match rbt with
  | [] => [(ty, (JSNum.fin 0).add n)]
  | (k, v) :: rest =>
    if k = ty then (k, v.orZero.add n) :: rest
    else (k, v) :: addRenderToType rest ty n

/-- The `rendersByType` accumulation loop (interaction.ts lines 288-292 and
370-374). -/
def groupRendersByType (irs : List InteractionResult) : List (String × JSNum) :=
  irs.foldl (fun rbt ir => addRenderToType rbt ir.interaction.type ir.rendersTriggered) []

/-- `aggregateResults` (interaction.ts lines 324-396).  `Date.now()` is
passed in as `now`; the empty-input `throw` becomes `Except.error`. -/
def aggregateResults (now : JSNum) (results : List MeasureInteractionResult) :
    Except String MeasureInteractionResult :=
  match results with
  | [] => .error "No results to aggregate"
  | first :: rest =>
    let results := first :: rest
    let allRenders := results.foldl (fun acc r => acc ++ r.metrics.renders) []
    let totalRenderCount :=
      results.foldl (fun acc r => acc.add r.metrics.renderCount) (JSNum.fin 0)
    let totalActualDuration :=
      results.foldl (fun acc r => acc.add r.metrics.totalActualDuration) (JSNum.fin 0)
    let totalBaseDuration :=
      results.foldl (fun acc r => acc.add r.metrics.totalBaseDuration) (JSNum.fin 0)
    let len : JSNum := .fin results.length
    let avgRenderCount := totalRenderCount.div len
    let avgActualDuration := totalActualDuration.div len
    let aggregatedInteractions : List InteractionResult :=
      (List.range first.interactionResults.length).map (fun index =>
        let interactionData :=
          results.map (fun r => r.interactionResults.getD index undefinedInteractionResult)
        let avgRenders :=
          (interactionData.foldl (fun sum r => sum.add r.rendersTriggered) (JSNum.fin 0)).div len
        let avgTime :=
          (interactionData.foldl (fun sum r => sum.add r.totalRenderTime) (JSNum.fin 0)).div len
        { interaction :=
            (first.interactionResults.getD index undefinedInteractionResult).interaction
          rendersTriggered := avgRenders.round
          totalRenderTime := avgTime
          averageRenderTime := if avgRenders.gt (.fin 0) then avgTime.div avgRenders else .fin 0 })
    let totalRenders := sumRendersTriggered aggregatedInteractions
    let rendersByType := groupRendersByType aggregatedInteractions
    .ok
      { componentName := first.componentName
        metrics :=
          { componentName := first.componentName
            renderCount := avgRenderCount.round
            totalActualDuration := avgActualDuration
            totalBaseDuration := totalBaseDuration.div len
            averageRenderTime :=
              if avgRenderCount.gt (.fin 0) then avgActualDuration.div avgRenderCount else .fin 0
            renders := allRenders }
        interactionResults := aggregatedInteractions
        totalRenders := totalRenders
        rendersPerInteraction :=
          if 0 < first.interactionResults.length then
            totalRenders.div (.fin first.interactionResults.length)
          else .fin 0
        rendersByType := rendersByType
        timestamp := now
        contractValidation := first.contractValidation }

/-- The run-count branch ending `measureInteraction`
(interaction.ts lines 312-318): with `runs === 1` the sole collected run is
returned unchanged, otherwise the runs are aggregated.  (`allResults[0]` on
an empty list would be `undefined` in the source; the loop guarantees
`allResults.length = runs ≥ 1` there.) -/
def finalizeMeasurement (now : JSNum) (runs : Nat)
    (allResults : List MeasureInteractionResult) : Except String MeasureInteractionResult :=
  if runs = 1 then
    match allResults with
    | r :: _ => .ok r
    | [] => .error "allResults[0] is undefined"
  else aggregateResults now allResults

/-! ## Statement helpers (spec side)

Functions used only to state the claims; they are not part of the source
embedding. -/

/-- Statement helper: the names a fail-status entry of a `ValidationResult`
metrics map should contribute to `violations`. -/
def failTag (label : String) : Option MetricValidation → List String
  | some v => if v.status = .fail then [label] else []
  | none => []

/-- Statement helper: names contributed by fail-status per-interaction
entries. -/
def interactionFailNames : Option (List (String × MetricValidation)) → List String
  | some l =>
    (l.filter (fun p => p.2.status == ValidationStatus.fail)).map
      (fun p => "rendersPerInteraction." ++ p.1)
  | none => []

/-- Statement helper: every fail-status metric name of a metrics map, in the
order the validator checks them. -/
def failNames (mm : ValidationMetricsMap) : List String :=
  failTag "renderTime" mm.renderTime ++ failTag "renderCount" mm.renderCount ++
    interactionFailNames mm.rendersPerInteraction

/-- Statement helper: a measurement with its `averageRenderTime` replaced. -/
def withAverageRenderTime : Measurements → JSNum → Measurements
  | .plain m, x => .plain { m with averageRenderTime := x }
  | .interaction r, x =>
    .interaction { r with metrics := { r.metrics with averageRenderTime := x } }

/-- Statement helper: a measurement with its `renderCount` replaced. -/
def withRenderCount : Measurements → JSNum → Measurements
  | .plain m, x => .plain { m with renderCount := x }
  | .interaction r, x =>
    .interaction { r with metrics := { r.metrics with renderCount := x } }

/-- Statement helper: what one aggregated interaction entry collapses to when
every run carries the same interaction result (the mean of identical values). -/
def meanCollapseIR (ir : InteractionResult) : InteractionResult :=
  { interaction := ir.interaction
    rendersTriggered := ir.rendersTriggered.round
    totalRenderTime := ir.totalRenderTime
    averageRenderTime :=
      if ir.rendersTriggered.gt (.fin 0) then ir.totalRenderTime.div ir.rendersTriggered
      else .fin 0 }

/-- Concrete contract with a zero `maxRenderCount` budget, reachable through
the exported pure API `validateAgainstContract` (used by the C5
counterexample). -/
def zeroBudgetContract : RequiredComponentContract :=
  { maxRenderTime := .inf
    maxRenderCount := .fin 0
    maxMemoryDelta := .inf
    warningThreshold := .fin (4/5)
    interactions := []
    meta := [] }

/-- Concrete measurement with three renders (used by the C5 counterexample). -/
def zeroBudgetMeasured : RenderMetrics :=
  { componentName := "ZeroBudget"
    renderCount := .fin 3
    totalActualDuration := .fin 3
    totalBaseDuration := .fin 3
    averageRenderTime := .fin 1
    renders := [] }

/-- The Scenario D configuration shape
`{global:{runs}, components:{X:{maxRenderTime}}}` with the two offending
values left as parameters (used by the C6 theorem). -/
def scenarioDConfig (r m : JSNum) : ContractConfig :=
  { global := some
      { runs := some r, warmupRuns := none, historyWindow := none,
        regressionThreshold := none, outputDir := none, artifactName := none,
        bundleStats := none, diagnostics := none }
    components := some [("X",
      { maxRenderTime := some m, maxRenderCount := none, maxMemoryDelta := none,
        warningThreshold := none, interactions := none, meta := none })]
    aggregates := none }

/-- A concrete, internally consistent single run used to witness C8: two
renders of 5ms each, both triggered by one click interaction. -/
def witnessRun : MeasureInteractionResult :=
  { componentName := "W8"
    metrics :=
      { componentName := "W8"
        renderCount := .fin 2
        totalActualDuration := .fin 10
        totalBaseDuration := .fin 8
        averageRenderTime := .fin 5
        renders := [] }
    interactionResults :=
      [{ interaction := { type := "click", target := "#b", text := none }
         rendersTriggered := .fin 2
         totalRenderTime := .fin 10
         averageRenderTime := .fin 5 }]
    totalRenders := .fin 2
    rendersPerInteraction := .fin 2
    rendersByType := [("click", .fin 2)]
    timestamp := .fin 0
    contractValidation := none }

/-! ## Helper lemmas -/

/-- `n` repeated JS additions of `v` starting from `s` (the shape a fold over
a replicated list produces). -/
def addIter : Nat → JSNum → JSNum → JSNum
  | 0, s, _ => s
  | n+1, s, v => addIter n (s.add v) v

theorem foldl_add_replicate {α : Type} (f : α → JSNum) (x : α) :
    ∀ (R : Nat) (s : JSNum),
      (List.replicate R x).foldl (fun acc y => acc.add (f y)) s = addIter R s (f x) := by
  intro R
  induction R with
  | zero => intro s; rfl
  | succ n ih => intro s; simp only [List.replicate_succ, List.foldl_cons, addIter, ih]

theorem jsnum_zero_add (v : JSNum) : (JSNum.fin 0).add v = v := by
  cases v <;> simp [JSNum.add]

theorem addIter_fin (q : ℚ) : ∀ (n : Nat) (a : ℚ),
    addIter n (.fin a) (.fin q) = .fin (a + n * q) := by
  intro n
  induction n with
  | zero => intro a; simp [addIter]
  | succ k ih =>
    intro a
    have h1 : addIter (k+1) (.fin a) (.fin q) = addIter k (.fin (a + q)) (.fin q) := rfl
    rw [h1, ih]
    congr 1
    push_cast
    ring

theorem addIter_nan_acc (v : JSNum) : ∀ n, addIter n .nan v = .nan := by
  intro n
  induction n with
  | zero => rfl
  | succ k ih => simpa [addIter, JSNum.add] using ih

theorem addIter_inf_acc : ∀ n, addIter n .inf .inf = .inf := by
  intro n
  induction n with
  | zero => rfl
  | succ k ih => simpa [addIter, JSNum.add] using ih

theorem addIter_ninf_acc : ∀ n, addIter n .ninf .ninf = .ninf := by
  intro n
  induction n with
  | zero => rfl
  | succ k ih => simpa [addIter, JSNum.add] using ih

theorem addIter_div_self (n : Nat) (v : JSNum) :
    (addIter (n+1) (.fin 0) v).div (.fin ((n+1 : ℕ) : ℚ)) = v := by
  have hpos : (0 : ℚ) < ((n+1 : ℕ) : ℚ) := by positivity
  cases v with
  | fin q =>
    rw [addIter_fin]
    have hne : ((n+1 : ℕ) : ℚ) ≠ 0 := ne_of_gt hpos
    simp only [JSNum.div, hne, if_false]
    congr 1
    rw [zero_add]
    exact mul_div_cancel_left₀ q hne
  | nan =>
    show (addIter n ((JSNum.fin 0).add .nan) .nan).div _ = _
    rw [show (JSNum.fin 0).add .nan = .nan from rfl, addIter_nan_acc]
    rfl
  | inf =>
    show (addIter n ((JSNum.fin 0).add .inf) .inf).div _ = _
    rw [show (JSNum.fin 0).add .inf = .inf from rfl, addIter_inf_acc]
    show (if ((n+1 : ℕ) : ℚ) < 0 then JSNum.ninf else JSNum.inf) = JSNum.inf
    rw [if_neg (not_lt.mpr hpos.le)]
  | ninf =>
    show (addIter n ((JSNum.fin 0).add .ninf) .ninf).div _ = _
    rw [show (JSNum.fin 0).add .ninf = .ninf from rfl, addIter_ninf_acc]
    show (if ((n+1 : ℕ) : ℚ) < 0 then JSNum.inf else JSNum.ninf) = JSNum.ninf
    rw [if_neg (not_lt.mpr hpos.le)]

/-- The arithmetic mean (JS sum fold then division by the length) of `n+1`
identical values collapses to the value itself, whatever it is. -/
theorem mean_replicate_fold {α : Type} (f : α → JSNum) (x : α) (n : Nat) :
    ((List.replicate (n+1) x).foldl (fun acc y => acc.add (f y)) (JSNum.fin 0)).div
      (.fin ((n+1 : ℕ) : ℚ)) = f x := by
  rw [foldl_add_replicate]
  exact addIter_div_self n (f x)

/-! ## Claim theorems -/

/-- Claim C1: for a metric validation with finite positive budget and any
fixed finite warning threshold, the status is `fail` iff `actual > budget`,
`warn` iff `warningThreshold < actual/budget ≤ 1`, and `pass` otherwise. -/
theorem c1_status_trichotomy (a b w : ℚ) (hb : 0 < b) :
    ((validateMetric (.fin a) (.fin b) (.fin w)).status = .fail ↔ b < a) ∧
    ((validateMetric (.fin a) (.fin b) (.fin w)).status = .warn ↔
      w < a / b ∧ a / b ≤ 1) ∧
    ((validateMetric (.fin a) (.fin b) (.fin w)).status = .pass ↔
      a / b ≤ 1 ∧ a / b ≤ w) := by
  have hbne : b ≠ 0 := ne_of_gt hb
  have hs : (validateMetric (.fin a) (.fin b) (.fin w)).status =
      if 1 < a / b then .fail else if w < a / b then .warn else .pass := by
    simp [validateMetric, getStatusFromUtilization, JSNum.div, hbne, JSNum.gt, JSNum.lt]
  have hiff : 1 < a / b ↔ b < a := one_lt_div hb
  refine ⟨?_, ?_, ?_⟩ <;> rw [hs] <;> split_ifs with h1 h2 <;>
    simp_all [not_lt.mp]

/-- Claim C1 witness: at `actual = 14`, `budget = 16`,
`warningThreshold = 0.8` the status is characterised by the theorem. -/
theorem c1_status_trichotomy_witness :
    ((validateMetric (.fin 14) (.fin 16) (.fin (4/5))).status = .warn ↔
      (4/5 : ℚ) < 14 / 16 ∧ (14 : ℚ) / 16 ≤ 1) :=
  (c1_status_trichotomy 14 16 (4/5) (by norm_num)).2.1

/-- Claim C4: violation severity is a pure function of `exceededByPercent`
with half-open boundaries `[0,0.25) → minor`, `[0.25,0.5) → moderate`,
`[0.5,∞) → severe`; in particular `0.25` maps to `moderate` and `0.5` to
`severe`. -/
theorem c4_severity_boundaries :
    (∀ e : ℚ,
      (getViolationSeverity (.fin e) = .minor ↔ e < 1/4) ∧
      (getViolationSeverity (.fin e) = .moderate ↔ 1/4 ≤ e ∧ e < 1/2) ∧
      (getViolationSeverity (.fin e) = .severe ↔ 1/2 ≤ e)) ∧
    getViolationSeverity (.fin (1/4)) = .moderate ∧
    getViolationSeverity (.fin (1/2)) = .severe := by
  refine ⟨?_, ?_, ?_⟩
  · intro e
    have hform : getViolationSeverity (.fin e) =
        if e < 1/4 then .minor else if e < 1/2 then .moderate else .severe := by
      simp [getViolationSeverity, JSNum.lt]
    refine ⟨?_, ?_, ?_⟩ <;> rw [hform] <;> split_ifs with h1 h2 <;>
      simp_all <;> try linarith
  · norm_num [getViolationSeverity, JSNum.lt]
  · norm_num [getViolationSeverity, JSNum.lt]

/-- Claim C5 counterexample: with a checked budget of `0` and an actual of
`3`, the utilization recorded in the `ValidationResult` is `Infinity`, not
`0` — `validateMetric` performs the raw division, with no zero-budget
guard. -/
theorem c5_counterexample :
    ((validateAgainstContract "ZeroBudget" (.plain zeroBudgetMeasured)
        zeroBudgetContract).metrics.renderCount).map (fun v => v.utilization) =
      some JSNum.inf := by
  norm_num [validateAgainstContract, extractRenderMetrics, zeroBudgetMeasured,
    zeroBudgetContract, validateMetric, JSNum.div, JSNum.sub, JSNum.gt, JSNum.lt,
    getStatusFromUtilization]
  exact ⟨_, ⟨by simp, rfl⟩, rfl⟩

/-- Claim C5 amended: the utilization recorded in a `MetricValidation` is
always the raw JS quotient `actual / budget`; when `budget == 0` that
quotient is NaN (for actual `0`), `-Infinity` (for negative actual) or
`+Infinity` (for positive actual), never `0`.  Only the separate exported
helper `getBudgetUtilization` maps a non-positive budget to `0`. -/
theorem c5_amended_utilization (a b w : JSNum) :
    (validateMetric a b w).utilization = a.div b ∧
    (∀ q : ℚ, (validateMetric (.fin q) (.fin 0) w).utilization =
      if q = 0 then .nan else if q < 0 then .ninf else .inf) ∧
    getBudgetUtilization a (.fin 0) = .fin 0 := by
  refine ⟨rfl, ?_, ?_⟩
  · intro q
    simp [validateMetric, JSNum.div]
  · simp [getBudgetUtilization, JSNum.gt, JSNum.lt]

/-- Claim C10: the overall status of an empty result list is `pass`; in
general it is `fail` iff some result failed, `warn` iff none failed but some
warned, `pass` iff none failed or warned; and the three per-status counts sum
to the number of results. -/
theorem c10_overall_status_and_counts (results : List ValidationResult) :
    getOverallStatus ([] : List ValidationResult) = .pass ∧
    (getOverallStatus results = .fail ↔ ∃ r ∈ results, r.status = .fail) ∧
    (getOverallStatus results = .warn ↔
      (¬ ∃ r ∈ results, r.status = .fail) ∧ ∃ r ∈ results, r.status = .warn) ∧
    (getOverallStatus results = .pass ↔
      (¬ ∃ r ∈ results, r.status = .fail) ∧ ¬ ∃ r ∈ results, r.status = .warn) ∧
    (countByStatus results).pass + (countByStatus results).warn +
      (countByStatus results).fail = results.length := by
  have hfail : ((results.map (fun r => r.status)).contains .fail = true) ↔
      ∃ r ∈ results, r.status = .fail := by
    rw [List.elem_iff]
    simp [List.mem_map, eq_comm]
  have hwarn : ((results.map (fun r => r.status)).contains .warn = true) ↔
      ∃ r ∈ results, r.status = .warn := by
    rw [List.elem_iff]
    simp [List.mem_map, eq_comm]
  refine ⟨rfl, ?_, ?_, ?_, ?_⟩
  · unfold getOverallStatus combineStatuses
    split_ifs with h1 h2 <;> simp_all
  · unfold getOverallStatus combineStatuses
    split_ifs with h1 h2 <;> simp_all
  · unfold getOverallStatus combineStatuses
    split_ifs with h1 h2 <;> simp_all
  · induction results with
    | nil => rfl
    | cons r rs ih =>
      cases hr : r.status <;>
        simp_all [countByStatus, List.filter_cons, List.length_cons] <;> omega

/-- Claim C6: `validateConfig` is exhaustive, not fail-fast: whenever both
the `global.runs` rule and the `X.maxRenderTime` rule are broken, the single
returned list contains both error strings — in particular it has at least
two entries, one per broken rule. -/
theorem c6_validateConfig_exhaustive (r m : JSNum)
    (hr : (r.lt (.fin 1) || !r.isInteger) = true)
    (hm : m.le (.fin 0) = true) :
    validateConfig (scenarioDConfig r m) =
      ["global.runs must be a positive integer", "X.maxRenderTime must be positive"] ∧
    "global.runs must be a positive integer" ∈ validateConfig (scenarioDConfig r m) ∧
    "X.maxRenderTime must be positive" ∈ validateConfig (scenarioDConfig r m) ∧
    2 ≤ (validateConfig (scenarioDConfig r m)).length := by
  have h : validateConfig (scenarioDConfig r m) =
      ["global.runs must be a positive integer", "X.maxRenderTime must be positive"] := by
    simp [validateConfig, scenarioDConfig, globalConfigErrors, componentsErrors,
      componentContractErrors, hr, hm]
  refine ⟨h, ?_, ?_, ?_⟩ <;> rw [h] <;> simp

/-- Claim C6 witness: `validateConfig({global:{runs:0},
components:{X:{maxRenderTime:-1}}})` returns exactly the two error strings. -/
theorem c6_validateConfig_exhaustive_witness :
    validateConfig (scenarioDConfig (.fin 0) (.fin (-1))) =
      ["global.runs must be a positive integer", "X.maxRenderTime must be positive"] :=
  (c6_validateConfig_exhaustive (.fin 0) (.fin (-1))
    (by norm_num [JSNum.lt]) (by norm_num [JSNum.le])).1

/-- Claim C7: resolution fills every omitted component field with its default
(`+Infinity` budgets, `0.8` warning threshold, empty `interactions`/`meta`)
and every omitted global field with its default (`runs=10`, `warmupRuns=1`,
`historyWindow=20`, `regressionThreshold=0.15`, `outputDir='.perf-contracts'`,
diagnostics enabled), and resolving the same input twice yields structurally
equal output. -/
theorem c7_resolve_defaults (c : ComponentContract) (g : Option GlobalConfig)
    (cfg : ContractConfig) :
    (c.maxRenderTime = none → (resolveComponentContract c).maxRenderTime = .inf) ∧
    (c.maxRenderCount = none → (resolveComponentContract c).maxRenderCount = .inf) ∧
    (c.maxMemoryDelta = none → (resolveComponentContract c).maxMemoryDelta = .inf) ∧
    (c.warningThreshold = none →
      (resolveComponentContract c).warningThreshold = .fin (4/5)) ∧
    (c.interactions = none → (resolveComponentContract c).interactions = []) ∧
    (c.meta = none → (resolveComponentContract c).meta = []) ∧
    (g.bind (fun x => x.runs) = none → (resolveGlobalConfig g).runs = .fin 10) ∧
    (g.bind (fun x => x.warmupRuns) = none →
      (resolveGlobalConfig g).warmupRuns = .fin 1) ∧
    (g.bind (fun x => x.historyWindow) = none →
      (resolveGlobalConfig g).historyWindow = .fin 20) ∧
    (g.bind (fun x => x.regressionThreshold) = none →
      (resolveGlobalConfig g).regressionThreshold = .fin (3/20)) ∧
    (g.bind (fun x => x.outputDir) = none →
      (resolveGlobalConfig g).outputDir = ".perf-contracts") ∧
    ((g.bind (fun x => x.diagnostics)).bind (fun d => d.enabled) = none →
      (resolveGlobalConfig g).diagnostics.enabled = true) ∧
    resolveConfig cfg = resolveConfig cfg := by
  refine ⟨fun h => ?_, fun h => ?_, fun h => ?_, fun h => ?_, fun h => ?_, fun h => ?_,
    fun h => ?_, fun h => ?_, fun h => ?_, fun h => ?_, fun h => ?_, fun h => ?_, rfl⟩ <;>
    simp [resolveComponentContract, resolveGlobalConfig, DEFAULT_GLOBAL_CONFIG,
      DEFAULT_COMPONENT_CONTRACT_warningThreshold, h]

/-- Claim C7 witness: resolving the empty sparse contract and the absent
global config produces the documented defaults. -/
theorem c7_resolve_defaults_witness :
    (resolveComponentContract ⟨none, none, none, none, none, none⟩).maxRenderTime = .inf ∧
    (resolveComponentContract ⟨none, none, none, none, none, none⟩).warningThreshold =
      .fin (4/5) ∧
    (resolveComponentContract ⟨none, none, none, none, none, none⟩).interactions = [] ∧
    (resolveGlobalConfig none).runs = .fin 10 ∧
    (resolveGlobalConfig none).regressionThreshold = .fin (3/20) ∧
    (resolveGlobalConfig none).outputDir = ".perf-contracts" ∧
    (resolveGlobalConfig none).diagnostics.enabled = true := by
  obtain ⟨h1, h2, h3, h4, h5, h6, h7, h8, h9, h10, h11, h12, h13⟩ :=
    c7_resolve_defaults ⟨none, none, none, none, none, none⟩ none ⟨none, none, none⟩
  exact ⟨h1 rfl, h4 rfl, h5 rfl, h7 rfl, h10 rfl, h11 rfl, h12 rfl⟩

/-- Claim C2: a metric whose budget is `+Infinity` produces no entry in
`ValidationResult.metrics` and has no influence on the result (in particular
on the overall status), regardless of the measured value: with
`maxRenderTime = Infinity` the whole result is invariant under changing the
measured average render time, with `maxRenderCount = Infinity` under changing
the measured render count, and `maxMemoryDelta` is never checked at all. -/
theorem c2_infinite_budget_skipped (name : String) (m : Measurements)
    (c : RequiredComponentContract) :
    (c.maxRenderTime = .inf →
      (validateAgainstContract name m c).metrics.renderTime = none ∧
      ∀ x, validateAgainstContract name (withAverageRenderTime m x) c =
        validateAgainstContract name m c) ∧
    (c.maxRenderCount = .inf →
      (validateAgainstContract name m c).metrics.renderCount = none ∧
      ∀ x, validateAgainstContract name (withRenderCount m x) c =
        validateAgainstContract name m c) ∧
    ((validateAgainstContract name m c).metrics.memoryDelta = none ∧
      ∀ x, validateAgainstContract name m { c with maxMemoryDelta := x } =
        validateAgainstContract name m c) := by
  refine ⟨fun h => ⟨?_, fun x => ?_⟩, fun h => ⟨?_, fun x => ?_⟩, ⟨?_, fun x => ?_⟩⟩ <;>
    cases m <;>
    simp_all [validateAgainstContract, extractRenderMetrics, withAverageRenderTime,
      withRenderCount]

/-- Claim C2 witness: with both budgets infinite and an empty interactions
map, the result records no metric entries whatever the measured values. -/
theorem c2_infinite_budget_skipped_witness :
    (validateAgainstContract "W" (.plain ⟨"W", .fin 9, .fin 99, .fin 99, .fin 11, []⟩)
      { maxRenderTime := .inf, maxRenderCount := .inf, maxMemoryDelta := .inf,
        warningThreshold := .fin (4/5), interactions := [], meta := [] }).metrics.renderTime
      = none ∧
    (validateAgainstContract "W" (.plain ⟨"W", .fin 9, .fin 99, .fin 99, .fin 11, []⟩)
      { maxRenderTime := .inf, maxRenderCount := .inf, maxMemoryDelta := .inf,
        warningThreshold := .fin (4/5), interactions := [], meta := [] }).metrics.renderCount
      = none := by
  obtain ⟨h1, h2, h3⟩ := c2_infinite_budget_skipped "W"
    (.plain ⟨"W", .fin 9, .fin 99, .fin 99, .fin 11, []⟩)
    { maxRenderTime := .inf, maxRenderCount := .inf, maxMemoryDelta := .inf,
      warningThreshold := .fin (4/5), interactions := [], meta := [] }
  exact ⟨(h1 rfl).1, (h2 rfl).1⟩

/-- The per-interaction violations carry exactly the names of the
fail-status per-interaction validation entries, in order. -/
theorem interactionChecks_violation_names (rbt : List (String × JSNum)) (w : JSNum)
    (l : List (String × InteractionBudget)) :
    ((interactionChecks rbt w l).2.2.map (fun v => v.metric)) =
      (((interactionChecks rbt w l).1.filter
          (fun p => p.2.status == ValidationStatus.fail)).map
        (fun p => "rendersPerInteraction." ++ p.1)) := by
  induction l with
  | nil => simp [interactionChecks]
  | cons hd tl ih =>
    obtain ⟨ty, budget⟩ := hd
    cases hmr : budget.maxRenders with
    | none => simpa [interactionChecks, hmr] using ih
    | some mr =>
      by_cases hf : (validateMetric (lookupOrZero rbt ty) mr w).status = .fail <;>
        simp [interactionChecks, hmr, hf, createViolation, ih]

/-- Claim C3: the violations list contains exactly one violation per checked
metric whose status is `fail`, and no `warn` or `pass` metric ever appears:
the violation names are precisely the fail-status entries of the metrics
map, in check order. -/
theorem c3_violations_exactly_fails (name : String) (m : Measurements)
    (c : RequiredComponentContract) :
    (validateAgainstContract name m c).violations.map (fun v => v.metric) =
      failNames (validateAgainstContract name m c).metrics := by
  cases m with
  | plain pm =>
    by_cases hrt : c.maxRenderTime = .inf <;>
    by_cases hrc : c.maxRenderCount = .inf <;>
    by_cases hfrt :
      (validateMetric pm.averageRenderTime c.maxRenderTime c.warningThreshold).status
        = .fail <;>
    by_cases hfrc :
      (validateMetric pm.renderCount c.maxRenderCount c.warningThreshold).status = .fail <;>
      simp [validateAgainstContract, extractRenderMetrics, failNames, failTag,
        interactionFailNames, createViolation, hrt, hrc, hfrt, hfrc]
  | interaction r =>
    have hinter := interactionChecks_violation_names r.rendersByType c.warningThreshold
      c.interactions
    by_cases hempty : (interactionChecks r.rendersByType c.warningThreshold c.interactions).1
        = [] <;>
    by_cases hrt : c.maxRenderTime = .inf <;>
    by_cases hrc : c.maxRenderCount = .inf <;>
    by_cases hfrt :
      (validateMetric r.metrics.averageRenderTime c.maxRenderTime c.warningThreshold).status
        = .fail <;>
    by_cases hfrc :
      (validateMetric r.metrics.renderCount c.maxRenderCount c.warningThreshold).status
        = .fail <;>
      simp_all [validateAgainstContract, extractRenderMetrics, failNames, failTag,
        interactionFailNames, createViolation, hrt, hrc, hfrt, hfrc, hempty]

/-- Membership in the per-interaction validation entries: `(kind, v)` is
recorded iff the contract declares `kind` with a defined `maxRenders` budget
`mr` and `v` validates `rendersByType[kind] || 0` against `mr`. -/
theorem interactionChecks_mem (rbt : List (String × JSNum)) (w : JSNum)
    (l : List (String × InteractionBudget)) (kind : String) (v : MetricValidation) :
    ((kind, v) ∈ (interactionChecks rbt w l).1 ↔
      ∃ b, (kind, b) ∈ l ∧ ∃ mr, b.maxRenders = some mr ∧
        v = validateMetric (lookupOrZero rbt kind) mr w) := by
  induction l with
  | nil => simp [interactionChecks]
  | cons hd tl ih =>
    obtain ⟨ty, budget⟩ := hd
    cases hmr : budget.maxRenders with
    | none =>
      rw [show interactionChecks rbt w ((ty, budget) :: tl) = interactionChecks rbt w tl by
        simp [interactionChecks, hmr]]
      rw [ih]
      constructor
      · rintro ⟨b, hb, hrest⟩
        exact ⟨b, List.mem_cons_of_mem _ hb, hrest⟩
      · rintro ⟨b, hb, mr, hbmr, hv⟩
        rcases List.mem_cons.mp hb with heq | hmem
        · obtain ⟨hk, hbud⟩ := Prod.mk.injEq .. ▸ heq
          exact absurd (hbud ▸ hbmr : budget.maxRenders = some mr) (by simp [hmr])
        · exact ⟨b, hmem, mr, hbmr, hv⟩
    | some mr =>
      rw [show interactionChecks rbt w ((ty, budget) :: tl) =
          ((ty, validateMetric (lookupOrZero rbt ty) mr w) ::
            (interactionChecks rbt w tl).1,
           (validateMetric (lookupOrZero rbt ty) mr w).status ::
            (interactionChecks rbt w tl).2.1,
           (if (validateMetric (lookupOrZero rbt ty) mr w).status = .fail then
             [createViolation ("rendersPerInteraction." ++ ty) mr (lookupOrZero rbt ty)]
            else []) ++ (interactionChecks rbt w tl).2.2) by
        simp [interactionChecks, hmr]]
      simp only [List.mem_cons, Prod.mk.injEq]
      constructor
      · rintro (⟨hk, hv⟩ | hmem)
        · exact ⟨budget, Or.inl ⟨hk, rfl⟩, mr, hmr, by rw [hv, hk]⟩
        · obtain ⟨b, hb, hrest⟩ := ih.mp hmem
          exact ⟨b, Or.inr hb, hrest⟩
      · rintro ⟨b, hb | hb, mrb, hbmr, hv⟩
        · obtain ⟨hk, hbud⟩ := hb
          refine Or.inl ⟨hk, ?_⟩
          rw [hv, hk]
          have hmm : mrb = mr := by
            have h2 := (hbud ▸ hbmr : budget.maxRenders = some mrb)
            rw [hmr] at h2
            exact (Option.some.injEq .. ▸ h2.symm)
          rw [hmm]
        · exact Or.inr (ih.mpr ⟨b, hb, mrb, hbmr, hv⟩)

/-- Claim C9: the validator checks exactly these metrics: average render time
against `maxRenderTime` (when finite), render count against `maxRenderCount`
(when finite), and, for each interaction kind declared in the contract's
interactions map with a defined `maxRenders`, the measured
`rendersByType[kind]` — `0` when the kind never occurred — against that
budget.  Memory delta is never checked.  A plain metrics measurement never
yields per-interaction entries. -/
theorem c9_checked_metrics (name : String) (r : MeasureInteractionResult)
    (pm : RenderMetrics) (c : RequiredComponentContract) :
    ((validateAgainstContract name (.interaction r) c).metrics.renderTime =
      if c.maxRenderTime = .inf then none
      else some (validateMetric r.metrics.averageRenderTime c.maxRenderTime
        c.warningThreshold)) ∧
    ((validateAgainstContract name (.interaction r) c).metrics.renderCount =
      if c.maxRenderCount = .inf then none
      else some (validateMetric r.metrics.renderCount c.maxRenderCount
        c.warningThreshold)) ∧
    ((validateAgainstContract name (.interaction r) c).metrics.memoryDelta = none) ∧
    (∀ kind v,
      (∃ l, (validateAgainstContract name (.interaction r) c).metrics.rendersPerInteraction
          = some l ∧ (kind, v) ∈ l) ↔
      (∃ b, (kind, b) ∈ c.interactions ∧ ∃ mr, b.maxRenders = some mr ∧
        v = validateMetric (lookupOrZero r.rendersByType kind) mr c.warningThreshold)) ∧
    ((validateAgainstContract name (.plain pm) c).metrics.rendersPerInteraction = none) := by
  refine ⟨?_, ?_, ?_, ?_, ?_⟩
  · by_cases hrt : c.maxRenderTime = .inf <;>
      simp [validateAgainstContract, extractRenderMetrics, hrt]
  · by_cases hrc : c.maxRenderCount = .inf <;>
      simp [validateAgainstContract, extractRenderMetrics, hrc]
  · simp [validateAgainstContract]
  · intro kind v
    rw [← interactionChecks_mem r.rendersByType c.warningThreshold c.interactions kind v]
    by_cases hempty :
        (interactionChecks r.rendersByType c.warningThreshold c.interactions).1 = [] <;>
      simp [validateAgainstContract, hempty]
  · simp [validateAgainstContract]

theorem map_eq_self_of_eq {α : Type} (l : List α) (f : α → α) (h : ∀ x ∈ l, f x = x) :
    l.map f = l := by
  induction l with
  | nil => rfl
  | cons a t ih =>
    rw [List.map_cons, h a (List.mem_cons_self a t),
      ih (fun x hx => h x (List.mem_cons_of_mem a hx))]

theorem range_map_getD {α β : Type} (l : List α) (d : α) (g : α → β) :
    (List.range l.length).map (fun i => g (l.getD i d)) = l.map g := by
  apply List.ext_getElem
  · simp
  · intro i h1 h2
    simp only [List.getElem_map, List.getElem_range]
    rw [List.getD_eq_getElem l d (by simpa using h1)]

theorem meanCollapseIR_eq (ir : InteractionResult) :
    ({ interaction := ir.interaction
       rendersTriggered := ir.rendersTriggered.round
       totalRenderTime := ir.totalRenderTime
       averageRenderTime :=
         if ir.rendersTriggered.gt (.fin 0) then ir.totalRenderTime.div ir.rendersTriggered
         else .fin 0 } : InteractionResult) = meanCollapseIR ir := rfl

/-- Aggregating `n+1` structurally identical runs: every mean collapses to
the single run's value, the render count and per-interaction render counts
go through `Math.round`, and the derived fields are recomputed from the
collapsed means. -/
theorem aggregateResults_replicate_succ (now : JSNum) (r : MeasureInteractionResult)
    (n : Nat) :
    aggregateResults now (List.replicate (n+1) r) = .ok
      { componentName := r.componentName
        metrics :=
          { componentName := r.componentName
            renderCount := r.metrics.renderCount.round
            totalActualDuration := r.metrics.totalActualDuration
            totalBaseDuration := r.metrics.totalBaseDuration
            averageRenderTime :=
              if r.metrics.renderCount.gt (.fin 0) then
                r.metrics.totalActualDuration.div r.metrics.renderCount
              else .fin 0
            renders :=
              (List.replicate (n+1) r).foldl (fun acc x => acc ++ x.metrics.renders) [] }
        interactionResults := r.interactionResults.map meanCollapseIR
        totalRenders := sumRendersTriggered (r.interactionResults.map meanCollapseIR)
        rendersPerInteraction :=
          if 0 < r.interactionResults.length then
            (sumRendersTriggered (r.interactionResults.map meanCollapseIR)).div
              (.fin (r.interactionResults.length : ℚ))
          else .fin 0
        rendersByType := groupRendersByType (r.interactionResults.map meanCollapseIR)
        timestamp := now
        contractValidation := r.contractValidation } := by
  rw [List.replicate_succ]
  simp only [aggregateResults]
  simp only [← List.replicate_succ]
  simp only [List.length_replicate, List.map_replicate, mean_replicate_fold,
    meanCollapseIR_eq, range_map_getD]

/-- Claim C8: with a requested run count of `1`, `measureInteraction`
returns the sole collected run unchanged (no averaging pass); and for every
`R ≥ 1`, aggregating `R` copies of a structurally identical, internally
consistent run (integral render counts, derived averages consistent with the
totals, `totalRenders`/`rendersByType` computed from the interaction results
the way `measureInteraction` computes them) yields the same scalar values —
`renderCount`, `totalActualDuration`, `totalBaseDuration`,
`averageRenderTime`, the per-interaction `rendersTriggered`,
`totalRenderTime` and `averageRenderTime`, `rendersByType` and
`totalRenders` — as the single run. -/
theorem c8_aggregation_laws (now : JSNum) (r : MeasureInteractionResult) (R : Nat)
    (hR : 1 ≤ R)
    (hrcInt : r.metrics.renderCount.round = r.metrics.renderCount)
    (havg : r.metrics.averageRenderTime =
      if r.metrics.renderCount.gt (.fin 0) then
        r.metrics.totalActualDuration.div r.metrics.renderCount
      else .fin 0)
    (hirs : ∀ ir ∈ r.interactionResults,
      ir.rendersTriggered.round = ir.rendersTriggered ∧
      ir.averageRenderTime =
        (if ir.rendersTriggered.gt (.fin 0) then
          ir.totalRenderTime.div ir.rendersTriggered
        else .fin 0))
    (htr : r.totalRenders = sumRendersTriggered r.interactionResults)
    (hrbt : r.rendersByType = groupRendersByType r.interactionResults) :
    (∀ rest, finalizeMeasurement now 1 (r :: rest) = .ok r) ∧
    (∃ agg, aggregateResults now (List.replicate R r) = .ok agg ∧
      agg.metrics.renderCount = r.metrics.renderCount ∧
      agg.metrics.totalActualDuration = r.metrics.totalActualDuration ∧
      agg.metrics.totalBaseDuration = r.metrics.totalBaseDuration ∧
      agg.metrics.averageRenderTime = r.metrics.averageRenderTime ∧
      agg.interactionResults = r.interactionResults ∧
      agg.totalRenders = r.totalRenders ∧
      agg.rendersByType = r.rendersByType) := by
  obtain ⟨n, rfl⟩ : ∃ n, R = n + 1 := ⟨R - 1, by omega⟩
  have hmap : r.interactionResults.map meanCollapseIR = r.interactionResults := by
    apply map_eq_self_of_eq
    intro ir hir
    obtain ⟨h1, h2⟩ := hirs ir hir
    cases ir with
    | mk spec rt tt avg =>
      simp only [meanCollapseIR] at h1 h2 ⊢
      simp_all
  refine ⟨fun rest => rfl, ?_⟩
  rw [aggregateResults_replicate_succ, hmap]
  exact ⟨_, rfl, hrcInt, rfl, rfl, havg.symm, rfl, htr.symm, hrbt.symm⟩

/-- Claim C8 witness: the single-run identity at `runs = 1` and the collapse
of aggregating three copies of the concrete run, with every hypothesis
discharged by evaluation. -/
theorem c8_aggregation_laws_witness :
    finalizeMeasurement (.fin 0) 1 [witnessRun] = .ok witnessRun ∧
    (∃ agg, aggregateResults (.fin 0) (List.replicate 3 witnessRun) = .ok agg ∧
      agg.metrics.renderCount = witnessRun.metrics.renderCount ∧
      agg.metrics.totalActualDuration = witnessRun.metrics.totalActualDuration ∧
      agg.metrics.totalBaseDuration = witnessRun.metrics.totalBaseDuration ∧
      agg.metrics.averageRenderTime = witnessRun.metrics.averageRenderTime ∧
      agg.interactionResults = witnessRun.interactionResults ∧
      agg.totalRenders = witnessRun.totalRenders ∧
      agg.rendersByType = witnessRun.rendersByType) := by
  obtain ⟨h1, h2⟩ := c8_aggregation_laws (.fin 0) witnessRun 3 (by norm_num)
    (by norm_num [witnessRun, JSNum.round])
    (by norm_num [witnessRun, JSNum.gt, JSNum.lt, JSNum.div])
    (by
      intro ir hir
      simp only [witnessRun, List.mem_singleton] at hir
      subst hir
      refine ⟨by norm_num [JSNum.round], by norm_num [JSNum.gt, JSNum.lt, JSNum.div]⟩)
    (by norm_num [witnessRun, sumRendersTriggered, JSNum.add])
    (by norm_num [witnessRun, groupRendersByType, addRenderToType, JSNum.add])
  exact ⟨h1 [], h2⟩
